import Mathlib

/-!
Verification development for the perpx-avantis trade engine
(`avantis-service`): a shallow embedding of the parameter validator,
fixed-point conversions, on-chain struct decoding, position listing,
receipt interpretation, retry policy, allowance management and the
TP/SL update path, together with theorems settling the spec claims.

Python floats are modelled as exact rationals (`ℚ`) except where a claim
is specifically about binary floating point, in which case the rounding of
a nonnegative integer to the nearest IEEE-754 double is modelled
explicitly (`pyFloatOfNat`).  On-chain integers are `ℕ`; Python `int(...)`
truncation toward zero on a rational is `pyInt`.
-/

namespace Avantis

/-- Python `int(q)` for a rational `q`: truncation toward zero. -/
def pyInt (q : ℚ) : ℤ :=
  if 0 ≤ q.num then ((q.num.toNat / q.den : ℕ) : ℤ)
  else -(((-q.num).toNat / q.den : ℕ) : ℤ)

/-- `contract_operations.py` line 34: protocol minimum collateral. -/
def MIN_COLLATERAL_USDC : ℚ := 10

/-- `contract_operations.py` line 35. -/
def USDC_DECIMALS : ℕ := 6

/-- `contract_operations.py` line 36. -/
def PRICE_DECIMALS : ℕ := 10

/-- `config.py` line 40: `avantis_max_pair_index`, the default pair scan bound. -/
def avantis_max_pair_index : ℕ := 32

/-- The zero-address sentinel compared against in the struct decoders. -/
def ZERO_ADDRESS : String := "0x0000000000000000000000000000000000000000"

/-- `contract_operations.py` lines 44-58, `validate_trade_params`:
pure parameter checks run with no I/O.  Returns the raised `ValueError`
message as `Except.error`. -/
def validate_trade_params (collateral_amount : ℚ) (leverage : ℤ)
    (pair_index : ℤ) : Except String Unit :=
  if collateral_amount < MIN_COLLATERAL_USDC then
    Except.error "Collateral is below protocol minimum."
  else if ¬ (2 ≤ leverage ∧ leverage ≤ 50) then
    Except.error "Leverage is out of range (2x-50x)."
  else if pair_index < 0 then
    Except.error "Invalid pair index"
  else
    Except.ok ()

/-- Binary logarithm with explicit structural fuel (so that it reduces in
the kernel); `natLog2 x` is the floor of log2 of `x` for `x > 0`. -/
def natLog2Aux : ℕ → ℕ → ℕ
  | 0, _ => 0
  | fuel + 1, n => if n < 2 then 0 else natLog2Aux fuel (n / 2) + 1

/-- `natLog2 x = Nat.log2 x`, kernel-reducible. -/
def natLog2 (x : ℕ) : ℕ := natLog2Aux x x

/-- The value of the IEEE-754 double (binary64) nearest to a natural
number, round-to-nearest ties-to-even: this is CPython `float(x)` for a
nonnegative `int` `x` (below the overflow threshold, which `uint256`
values never reach).  Integers below `2^53` are exact; above, the value is
rounded to a multiple of the unit in the last place. -/
def pyFloatOfNat (x : ℕ) : ℕ :=
  if x < 2 ^ 53 then x
  else
    let ulp := 2 ^ (natLog2 x - 52)
    let q := x / ulp
    let r := x % ulp
    if 2 * r < ulp then q * ulp
    else if ulp < 2 * r then (q + 1) * ulp
    else (if q % 2 = 0 then q else q + 1) * ulp

/-- Human → chain for 6-decimal USDC amounts, as the open-position path
does it (`contract_operations.py` line 114): multiply by the scale and
truncate with `int(...)`. -/
def toChainAmount (d : ℚ) : ℤ := pyInt (d * 10 ^ USDC_DECIMALS)

/-- Human → chain for 10-decimal prices (`contract_operations.py`
lines 116-117, 862-867). -/
def toChainPrice (d : ℚ) : ℤ := pyInt (d * 10 ^ PRICE_DECIMALS)

/-- Chain → human for 6-decimal amounts under exact (full-precision)
division — the arithmetic the decoder at `contract_operations.py`
line 384 performs, idealized from IEEE doubles to exact rationals. -/
def fromChainAmountExact (x : ℕ) : ℚ := (x : ℚ) / 10 ^ USDC_DECIMALS

/-- Chain → human for 10-decimal prices under exact division
(decoder line 386, idealized). -/
def fromChainPriceExact (x : ℕ) : ℚ := (x : ℚ) / 10 ^ PRICE_DECIMALS

theorem pyInt_intCast (n : ℤ) : pyInt ((n : ℤ) : ℚ) = n := by
  unfold pyInt
  rw [Rat.num_intCast, Rat.den_intCast]
  split_ifs with h
  · simp only [Nat.div_one]
    omega
  · simp only [Nat.div_one]
    omega

theorem toChainAmount_fromChainAmountExact (x : ℕ) :
    toChainAmount (fromChainAmountExact x) = (x : ℤ) := by
  unfold toChainAmount fromChainAmountExact
  have h : (x : ℚ) / 10 ^ USDC_DECIMALS * 10 ^ USDC_DECIMALS = ((x : ℤ) : ℚ) := by
    push_cast
    field_simp
  rw [h, pyInt_intCast]

theorem toChainPrice_fromChainPriceExact (x : ℕ) :
    toChainPrice (fromChainPriceExact x) = (x : ℤ) := by
  unfold toChainPrice fromChainPriceExact
  have h : (x : ℚ) / 10 ^ PRICE_DECIMALS * 10 ^ PRICE_DECIMALS = ((x : ℤ) : ℚ) := by
    push_cast
    field_simp
  rw [h, pyInt_intCast]

/-- C2: the parameter validator, run with no I/O, accepts a trade request
exactly when collateral ≥ the configured protocol minimum, leverage lies
in the inclusive range 2–50, and the pair index is non-negative; every
request violating any bound is rejected with a raised error.  The model
`validate_trade_params` is a pure function: no network call occurs on
either path. -/
theorem validator_accepts_exactly_configured_bounds (c : ℚ) (l p : ℤ) :
    (validate_trade_params c l p = Except.ok () ↔
      (MIN_COLLATERAL_USDC ≤ c ∧ 2 ≤ l ∧ l ≤ 50 ∧ 0 ≤ p)) ∧
    ((c < MIN_COLLATERAL_USDC ∨ l < 2 ∨ 50 < l ∨ p < 0) →
      ∃ msg, validate_trade_params c l p = Except.error msg) := by
  unfold validate_trade_params
  split_ifs with h1 h2 h3
  · exact ⟨⟨False.elim, fun h => absurd h.1 (not_le.mpr h1)⟩, fun _ => ⟨_, rfl⟩⟩
  · exact ⟨⟨False.elim, fun h => absurd h.2.2.2 (not_le.mpr h3)⟩, fun _ => ⟨_, rfl⟩⟩
  · refine ⟨⟨fun _ => ⟨not_lt.mp h1, h2.1, h2.2, not_lt.mp h3⟩, fun _ => rfl⟩, ?_⟩
    rintro (h | h | h | h)
    · exact (h1 h).elim
    · exact absurd h2.1 (by omega)
    · exact absurd h2.2 (by omega)
    · exact (h3 h).elim
  · exact ⟨⟨False.elim, fun h => absurd ⟨h.2.1, h.2.2.1⟩ h2⟩, fun _ => ⟨_, rfl⟩⟩

/-- Witness for C2 at a concrete accepted input and a concrete rejected
input: collateral $50, leverage 10, pair 0 is accepted; collateral $5 is
rejected. -/
theorem validator_accepts_exactly_configured_bounds_witness :
    validate_trade_params 50 10 0 = Except.ok () ∧
    (∃ msg, validate_trade_params 5 10 0 = Except.error msg) :=
  ⟨(validator_accepts_exactly_configured_bounds 50 10 0).1.mpr
      ⟨by norm_num [MIN_COLLATERAL_USDC], by norm_num, by norm_num, by norm_num⟩,
    (validator_accepts_exactly_configured_bounds 5 10 0).2
      (Or.inl (by norm_num [MIN_COLLATERAL_USDC]))⟩

/-- C3 (the code is the slip, the spec states the intent): under the
full-precision arithmetic the spec mandates for chain→human conversion,
the fixed-point round-trip `toChainUnits (fromChainUnits x) = x` holds
for every on-chain integer `x`, at both the 6-decimal amount scale and
the 10-decimal price scale.  The decoder as written, however, first
coerces the raw integer through an IEEE-754 double (`float(raw[4])` at
`contract_operations.py` line 384): that coercion already identifies the
representable on-chain integers `2^53 + 1` and `2^53`, so the code's
round-trip cannot return every representable `x` unchanged. -/
theorem fixed_point_round_trip_exact_and_float_collision :
    (∀ x : ℕ, toChainAmount (fromChainAmountExact x) = (x : ℤ)) ∧
    (∀ x : ℕ, toChainPrice (fromChainPriceExact x) = (x : ℤ)) ∧
    pyFloatOfNat 9007199254740993 = 9007199254740992 ∧
    pyFloatOfNat 9007199254740992 = 9007199254740992 ∧
    (9007199254740993 : ℕ) ≠ 9007199254740992 :=
  ⟨toChainAmount_fromChainAmountExact, toChainPrice_fromChainPriceExact,
    by decide, by decide, by decide⟩

/-- Substring test: `strContains hay needle` is true when `needle` occurs
inside `hay` — Python `needle in hay`. -/
def strContains (hay needle : String) : Bool :=
  decide (needle.data <:+: hay.data)

/-- ASCII lower-casing, character by character — Python `.lower()` on
the ASCII text involved here.  (Defined through `List.map` so that it
reduces in the kernel.) -/
def strToLower (s : String) : String := String.mk (s.data.map Char.toLower)

/-- A mined transaction receipt as `_format_receipt` consumes it
(`contract_operations.py` lines 1073-1134): the status flag, the
transaction hash, the block number, and `str(receipt)`, the text the
BELOW_MIN_POS scan searches. -/
structure Receipt where
  status : ℕ
  transactionHash : String
  blockNumber : ℕ
  text : String
deriving DecidableEq

/-- Lines 1081-1089: the hash is read from the receipt and replaced by
`"unknown"` when absent/empty. -/
def effectiveTxHash (r : Receipt) : String :=
  if r.transactionHash = "" then "unknown" else r.transactionHash

/-- Line 1125: the known rejection signature, in ASCII or as the
lower-cased hex-encoded revert data. -/
def belowMinPosSignature (text : String) : Bool :=
  strContains text "BELOW_MIN_POS" ||
    strContains (strToLower text) "42454c4f575f4d494e5f504f53"

/-- The two `ValueError` templates `_format_receipt` raises on a reverted
receipt: the BELOW_MIN_POS category (lines 1126-1130, carrying the
collateral it interpolates and the hash) and the generic
reverted-on-chain error (line 1120, carrying the hash). -/
inductive RevertError where
  | belowMinPos (collateral : Option ℚ) (txHash : String)
  | reverted (txHash : String)
deriving DecidableEq

def RevertError.txHash : RevertError → String
  | .belowMinPos _ h => h
  | .reverted h => h

def RevertError.isBelowMinPos : RevertError → Bool
  | .belowMinPos _ _ => true
  | .reverted _ => false

/-- The success dictionary built at lines 1099-1115 (optional keys are
`Option` fields, `none` = key absent). -/
structure FormatResult where
  success : Bool
  tx_hash : String
  pair_index : ℤ
  status : String
  block : ℕ
  opening_fee : Option ℚ
  total_cost : Option ℚ
  collateral : Option ℚ
deriving DecidableEq

/-- `contract_operations.py` lines 1073-1134, `_format_receipt`. -/
def format_receipt (receipt : Receipt) (pair_index : ℤ)
    (opening_fee total_cost collateral_amount : Option ℚ) :
    Except RevertError FormatResult :=
  if receipt.status = 1 then
    Except.ok
      { success := true
        tx_hash := effectiveTxHash receipt
        pair_index := pair_index
        status := "confirmed"
        block := receipt.blockNumber
        opening_fee := opening_fee
        total_cost := total_cost
        collateral := collateral_amount }
  else if belowMinPosSignature receipt.text then
    Except.error (RevertError.belowMinPos collateral_amount (effectiveTxHash receipt))
  else
    Except.error (RevertError.reverted (effectiveTxHash receipt))

/-- C5: the receipt interpreter returns a success result preserving the
transaction hash unchanged for every mined receipt with status 1; for any
other status it raises, and the raised error names the BELOW_MIN_POS
category exactly when the known rejection signature appears in the
receipt text, otherwise it is the generic reverted-on-chain error — in
both revert cases the error carries the transaction hash. -/
theorem receipt_interpreter_classification (r : Receipt) (pi : ℤ)
    (f t c : Option ℚ) :
    (r.status = 1 → r.transactionHash ≠ "" →
      ∃ res, format_receipt r pi f t c = Except.ok res ∧
        res.tx_hash = r.transactionHash ∧ res.success = true) ∧
    (r.status ≠ 1 →
      ∃ e, format_receipt r pi f t c = Except.error e ∧
        e.isBelowMinPos = belowMinPosSignature r.text ∧
        (r.transactionHash ≠ "" → e.txHash = r.transactionHash)) := by
  constructor
  · intro h1 h2
    unfold format_receipt
    rw [if_pos h1]
    exact ⟨_, rfl, by simp [effectiveTxHash, h2], rfl⟩
  · intro h1
    unfold format_receipt
    rw [if_neg h1]
    by_cases hs : belowMinPosSignature r.text
    · rw [if_pos hs]
      exact ⟨_, rfl, by simp [RevertError.isBelowMinPos, hs],
        fun h2 => by simp [RevertError.txHash, effectiveTxHash, h2]⟩
    · rw [if_neg hs]
      refine ⟨_, rfl, by simp [RevertError.isBelowMinPos]; exact (Bool.not_eq_true _).mp hs,
        fun h2 => by simp [RevertError.txHash, effectiveTxHash, h2]⟩

/-- Witness for C5: a status-1 receipt keeps its hash; a status-0 receipt
with the BELOW_MIN_POS signature embedded raises the matching category. -/
theorem receipt_interpreter_classification_witness :
    (∃ res, format_receipt ⟨1, "0xabc", 12, "status 1"⟩ 0 none none none =
        Except.ok res ∧ res.tx_hash = "0xabc" ∧ res.success = true) ∧
    (∃ e, format_receipt ⟨0, "0xdef", 0, "reverted BELOW_MIN_POS"⟩ 3 none none
        (some 50) = Except.error e ∧
        e.isBelowMinPos = belowMinPosSignature "reverted BELOW_MIN_POS" ∧
        ("0xdef" ≠ "" → e.txHash = "0xdef")) :=
  ⟨(receipt_interpreter_classification ⟨1, "0xabc", 12, "status 1"⟩ 0
      none none none).1 rfl (by decide),
    (receipt_interpreter_classification ⟨0, "0xdef", 0, "reverted BELOW_MIN_POS"⟩ 3
      none none (some 50)).2 (by decide)⟩

/-- The raw `ITradingStorage.Trade` tuple returned by
`openTrades(trader, pairIndex, index)` (ABI at `contract_operations.py`
lines 225-256): field order as on chain.  The trader address is the hex
string web3 returns. -/
structure RawTrade where
  trader : String
  pairIndex : ℕ
  index : ℕ
  initialPosToken : ℕ
  positionSizeUSDC : ℕ
  openPrice : ℕ
  buy : Bool
  leverage : ℕ
  tp : ℕ
  sl : ℕ
  timestamp : ℕ
deriving DecidableEq

/-- The decoded dict `_decode_trade_struct` builds (lines 378-394): raw
and human fields side by side. -/
structure TradeRecord where
  trader : String
  pair_index : ℕ
  index : ℕ
  initial_pos_token_raw : ℕ
  position_size_usdc_raw : ℕ
  position_size_usdc : ℚ
  open_price_raw : ℕ
  open_price : ℚ
  is_long : Bool
  leverage : ℕ
  tp_raw : ℕ
  tp : ℚ
  sl_raw : ℕ
  sl : ℚ
  timestamp : ℕ
deriving DecidableEq

/-- `contract_operations.py` lines 370-394, `_decode_trade_struct`: the
zero-trader sentinel decodes to the empty dict (`none` here); otherwise
the raw tuple is decoded with 6-decimal amounts and 10-decimal prices.
The human fields divide the raw integer by the scale: `mkRat n d` is
exactly the rational `n / d` (see `mkRat_scale_eq_div`); it is used here
so that concrete instances evaluate inside the kernel. -/
def decode_trade_struct (raw : RawTrade) : Option TradeRecord :=
  if raw.trader = ZERO_ADDRESS then none
  else some
    { trader := raw.trader
      pair_index := raw.pairIndex
      index := raw.index
      initial_pos_token_raw := raw.initialPosToken
      position_size_usdc_raw := raw.positionSizeUSDC
      position_size_usdc := mkRat raw.positionSizeUSDC (10 ^ USDC_DECIMALS)
      open_price_raw := raw.openPrice
      open_price := mkRat raw.openPrice (10 ^ PRICE_DECIMALS)
      is_long := raw.buy
      leverage := raw.leverage
      tp_raw := raw.tp
      tp := if 0 < raw.tp then mkRat raw.tp (10 ^ PRICE_DECIMALS) else 0
      sl_raw := raw.sl
      sl := if 0 < raw.sl then mkRat raw.sl (10 ^ PRICE_DECIMALS) else 0
      timestamp := raw.timestamp }

/-- The decoder's `mkRat` is ordinary exact division by the scale. -/
theorem mkRat_scale_eq_div (n d : ℕ) : (mkRat n d : ℚ) = (n : ℚ) / (d : ℚ) := by
  rw [Rat.mkRat_eq_div]
  norm_num

/-- The position dict appended by `get_positions_via_contract`
(lines 787-802). -/
structure Position where
  trader : String
  pair_index : ℕ
  index : ℕ
  initial_pos_token : ℕ
  position_size_usdc : ℚ
  position_size_usdc_raw : ℕ
  open_price : ℚ
  is_long : Bool
  leverage : ℕ
  tp : ℚ
  sl : ℚ
  timestamp : ℕ
deriving DecidableEq

def positionOfTrade (t : TradeRecord) : Position :=
  { trader := t.trader
    pair_index := t.pair_index
    index := t.index
    initial_pos_token := t.initial_pos_token_raw
    position_size_usdc := t.position_size_usdc
    position_size_usdc_raw := t.position_size_usdc_raw
    open_price := t.open_price
    is_long := t.is_long
    leverage := t.leverage
    tp := t.tp
    sl := t.sl
    timestamp := t.timestamp }

/-- Lines 756-758: `if not pair_indices:` — `None` and the empty list both
fall back to `range(avantis_max_pair_index)`. -/
def resolvePairs : Option (List ℕ) → List ℕ
  | none => List.range avantis_max_pair_index
  | some [] => List.range avantis_max_pair_index
  | some ps => ps

/-- `contract_operations.py` lines 727-811, `get_positions_via_contract`:
the pairs × slots discovery loop.  `counts` is the
`openTradesCount(trader, p)` oracle and `reads` the
`openTrades(trader, p, i)` oracle; `Except.error ()` stands for a raised
RPC exception, which the code logs and skips (`try/except` at lines
766-809).  The accumulating `foldl`s mirror the imperative
`positions.append` loop. -/
def get_positions_via_contract (pair_indices : Option (List ℕ))
    (counts : ℕ → Except Unit ℕ)
    (reads : ℕ → ℕ → Except Unit RawTrade) : List Position :=
  (resolvePairs pair_indices).foldl
    (fun positions pair_index =>
      match counts pair_index with
      | Except.error _ => positions
      | Except.ok count =>
        (List.range count).foldl
          (fun acc trade_index =>
            match reads pair_index trade_index with
            | Except.error _ => acc
            | Except.ok raw =>
              match decode_trade_struct raw with
              | none => acc
              | some trade => acc ++ [positionOfTrade trade])
          positions)
    []

theorem decode_trade_struct_some {raw : RawTrade} {t : TradeRecord}
    (h : decode_trade_struct raw = some t) :
    t.trader = raw.trader ∧ raw.trader ≠ ZERO_ADDRESS := by
  by_cases hz : raw.trader = ZERO_ADDRESS
  · rw [decode_trade_struct, if_pos hz] at h
    exact nomatch h
  · rw [decode_trade_struct, if_neg hz] at h
    injection h with h2
    subst h2
    exact ⟨rfl, hz⟩

theorem foldl_mem_pred {β : Type} (P : Position → Prop)
    (f : List Position → β → List Position)
    (hf : ∀ acc b pos, pos ∈ f acc b → pos ∈ acc ∨ P pos) :
    ∀ (l : List β) (acc : List Position), (∀ pos ∈ acc, P pos) →
      ∀ pos ∈ l.foldl f acc, P pos := by
  intro l
  induction l with
  | nil => intro acc hacc pos hpos; exact hacc pos hpos
  | cons b l ih =>
    intro acc hacc pos hpos
    refine ih (f acc b) ?_ pos hpos
    intro q hq
    rcases hf acc b q hq with h | h
    · exact hacc q h
    · exact h

/-- C4: a decoded on-chain trade whose trader field is the zero address
is the empty-slot sentinel — the decoder returns the empty record for it,
and no zero-trader record ever appears in the position list returned to
the caller, for any trader oracle and any pair/slot indices. -/
theorem zero_trader_sentinel_never_surfaced (pair_indices : Option (List ℕ))
    (counts : ℕ → Except Unit ℕ) (reads : ℕ → ℕ → Except Unit RawTrade) :
    (∀ raw : RawTrade, raw.trader = ZERO_ADDRESS →
      decode_trade_struct raw = none) ∧
    (∀ pos ∈ get_positions_via_contract pair_indices counts reads,
      pos.trader ≠ ZERO_ADDRESS) := by
  constructor
  · intro raw h
    unfold decode_trade_struct
    rw [if_pos h]
  · unfold get_positions_via_contract
    refine foldl_mem_pred (fun x => x.trader ≠ ZERO_ADDRESS) _ ?_ _ []
      (by intro pos h; cases h)
    intro acc p pos hpos
    cases hc : counts p with
    | error e =>
      simp only [hc] at hpos
      exact Or.inl hpos
    | ok c =>
      simp only [hc] at hpos
      refine foldl_mem_pred (fun x => x ∈ acc ∨ x.trader ≠ ZERO_ADDRESS) _ ?_ _ acc
        (fun q hq => Or.inl hq) pos hpos
      intro acc2 i q hq
      cases hr : reads p i with
      | error e =>
        simp only [hr] at hq
        exact Or.inl hq
      | ok raw =>
        simp only [hr] at hq
        cases hd : decode_trade_struct raw with
        | none =>
          simp only [hd] at hq
          exact Or.inl hq
        | some t =>
          simp only [hd] at hq
          rcases List.mem_append.mp hq with h | h
          · exact Or.inl h
          · right
            right
            rw [List.mem_singleton.mp h]
            have := decode_trade_struct_some hd
            show t.trader ≠ ZERO_ADDRESS
            rw [this.1]
            exact this.2

/-- A concrete occupied slot used by witnesses. -/
def rawSample : RawTrade :=
  { trader := "0xTrader"
    pairIndex := 2
    index := 0
    initialPosToken := 0
    positionSizeUSDC := 50000000
    openPrice := 650000000000000
    buy := true
    leverage := 10
    tp := 0
    sl := 0
    timestamp := 1000 }

/-- The position `rawSample` decodes to. -/
def posSample : Position :=
  { trader := "0xTrader"
    pair_index := 2
    index := 0
    initial_pos_token := 0
    position_size_usdc := 50
    position_size_usdc_raw := 50000000
    open_price := 65000
    is_long := true
    leverage := 10
    tp := 0
    sl := 0
    timestamp := 1000 }

/-- Witness for C4: a concrete listing containing one decoded position
whose trader is not the zero address. -/
theorem zero_trader_sentinel_never_surfaced_witness :
    posSample.trader ≠ ZERO_ADDRESS :=
  (zero_trader_sentinel_never_surfaced (some [2]) (fun _ => Except.ok 1)
    (fun _ _ => Except.ok rawSample)).2 posSample (by decide)

/-- The all-zero raw tuple an empty slot reads as on chain. -/
def emptyRawTrade : RawTrade :=
  { trader := ZERO_ADDRESS
    pairIndex := 0
    index := 0
    initialPosToken := 0
    positionSizeUSDC := 0
    openPrice := 0
    buy := false
    leverage := 0
    tp := 0
    sl := 0
    timestamp := 0 }

/-- The read oracle with a raised exception injected at one (pair, slot). -/
def failReadAt (reads : ℕ → ℕ → Except Unit RawTrade) (p₀ i₀ : ℕ) :
    ℕ → ℕ → Except Unit RawTrade :=
  fun p i => if p = p₀ ∧ i = i₀ then Except.error () else reads p i

/-- The read oracle answering an empty slot at one (pair, slot). -/
def emptySlotReadAt (reads : ℕ → ℕ → Except Unit RawTrade) (p₀ i₀ : ℕ) :
    ℕ → ℕ → Except Unit RawTrade :=
  fun p i => if p = p₀ ∧ i = i₀ then Except.ok emptyRawTrade else reads p i

/-- The count oracle with a raised exception injected at one pair. -/
def failCountAt (counts : ℕ → Except Unit ℕ) (p₀ : ℕ) : ℕ → Except Unit ℕ :=
  fun p => if p = p₀ then Except.error () else counts p

/-- The count oracle answering zero occupied slots at one pair. -/
def zeroCountAt (counts : ℕ → Except Unit ℕ) (p₀ : ℕ) : ℕ → Except Unit ℕ :=
  fun p => if p = p₀ then Except.ok 0 else counts p

theorem foldl_eq_init {α β : Type} (f : α → β → α) :
    ∀ (l : List β) (acc : α), (∀ a, ∀ b ∈ l, f a b = a) → l.foldl f acc = acc := by
  intro l
  induction l with
  | nil => intro acc _; rfl
  | cons b l ih =>
    intro acc h
    rw [List.foldl_cons, h acc b (List.mem_cons_self b l)]
    exact ih acc (fun a x hx => h a x (List.mem_cons_of_mem b hx))

/-- The raw `ITradingStorage.TradeInfo` tuple returned by
`openTradesInfo` (ABI at `contract_operations.py` lines 257-281). -/
structure RawTradeInfo where
  openInterestUSDC : ℕ
  tpLastUpdated : ℕ
  slLastUpdated : ℕ
  beingMarketClosed : Bool
  lossProtection : ℕ
deriving DecidableEq

/-- The dict `_decode_trade_info_struct` builds (lines 397-413). -/
structure TradeInfoRecord where
  open_interest_usdc_raw : ℕ
  open_interest_usdc : ℚ
  tp_last_updated : ℕ
  sl_last_updated : ℕ
  being_market_closed : Bool
  loss_protection_raw : ℕ
  loss_protection : ℚ
deriving DecidableEq

/-- `contract_operations.py` lines 397-413, `_decode_trade_info_struct`
(the tuple is always present on a successful call, so the `if not raw`
guard is not reachable here). -/
def decode_trade_info_struct (raw : RawTradeInfo) : TradeInfoRecord :=
  { open_interest_usdc_raw := raw.openInterestUSDC
    open_interest_usdc := mkRat raw.openInterestUSDC (10 ^ USDC_DECIMALS)
    tp_last_updated := raw.tpLastUpdated
    sl_last_updated := raw.slLastUpdated
    being_market_closed := raw.beingMarketClosed
    loss_protection_raw := raw.lossProtection
    loss_protection := mkRat raw.lossProtection (10 ^ USDC_DECIMALS) }

/-- The raw `ITradingStorage.OpenLimitOrder` tuple returned by
`getOpenLimitOrder` (ABI at lines 282-313). -/
structure RawOpenLimitOrder where
  trader : String
  pairIndex : ℕ
  index : ℕ
  positionSize : ℕ
  buy : Bool
  leverage : ℕ
  tp : ℕ
  sl : ℕ
  price : ℕ
  slippageP : ℕ
  block : ℕ
  executionFee : ℕ
deriving DecidableEq

/-- The dict `_decode_open_limit_order_struct` builds (lines 416-442). -/
structure OpenLimitRecord where
  trader : String
  pair_index : ℕ
  index : ℕ
  position_size_raw : ℕ
  position_size : ℚ
  is_long : Bool
  leverage : ℕ
  tp_raw : ℕ
  tp : ℚ
  sl_raw : ℕ
  sl : ℚ
  price_raw : ℕ
  price : ℚ
  slippage_p : ℕ
  block : ℕ
  execution_fee_raw : ℕ
deriving DecidableEq

/-- `contract_operations.py` lines 416-442,
`_decode_open_limit_order_struct`: the zero-trader sentinel decodes to
the empty dict (`none`). -/
def decode_open_limit_order_struct (raw : RawOpenLimitOrder) :
    Option OpenLimitRecord :=
  if raw.trader = ZERO_ADDRESS then none
  else some
    { trader := raw.trader
      pair_index := raw.pairIndex
      index := raw.index
      position_size_raw := raw.positionSize
      position_size := mkRat raw.positionSize (10 ^ USDC_DECIMALS)
      is_long := raw.buy
      leverage := raw.leverage
      tp_raw := raw.tp
      tp := if 0 < raw.tp then mkRat raw.tp (10 ^ PRICE_DECIMALS) else 0
      sl_raw := raw.sl
      sl := if 0 < raw.sl then mkRat raw.sl (10 ^ PRICE_DECIMALS) else 0
      price_raw := raw.price
      price := mkRat raw.price (10 ^ PRICE_DECIMALS)
      slippage_p := raw.slippageP
      block := raw.block
      execution_fee_raw := raw.executionFee }

/-- The merged record `get_open_trade_full` returns (lines 1175-1179). -/
structure FullTrade where
  trade : TradeRecord
  info : TradeInfoRecord
  open_limit_order : Option OpenLimitRecord
deriving DecidableEq

/-- `contract_operations.py` lines 1141-1179, `get_open_trade_full`:
the three per-slot structural reads run together in `_call_all`, so the
oracle answers all three (or raises, `Except.error`); a raised read
propagates to the caller — this function has no `try/except`.  A
zero-trader trade short-circuits to the empty dict (`Except.ok none`). -/
def get_open_trade_full
    (callAll : Except Unit (RawTrade × RawTradeInfo × RawOpenLimitOrder)) :
    Except Unit (Option FullTrade) :=
  match callAll with
  | Except.error e => Except.error e
  | Except.ok (trade_raw, info_raw, olo_raw) =>
    match decode_trade_struct trade_raw with
    | none => Except.ok none
    | some trade =>
      Except.ok (some
        { trade := trade
          info := decode_trade_info_struct info_raw
          open_limit_order := decode_open_limit_order_struct olo_raw })

/-- The inner slot loop of `get_all_open_trades_for_trader`
(lines 1225-1233): each `get_open_trade_full` call is **not** wrapped in
`try/except`, so a raised read aborts the whole scan. -/
def scanSlotsFull
    (readsFull : ℕ → ℕ → Except Unit (RawTrade × RawTradeInfo × RawOpenLimitOrder))
    (pair_index : ℕ) :
    List ℕ → List FullTrade → Except Unit (List FullTrade)
  | [], results => Except.ok results
  | idx :: rest, results =>
    match get_open_trade_full (readsFull pair_index idx) with
    | Except.error e => Except.error e
    | Except.ok none => scanSlotsFull readsFull pair_index rest results
    | Except.ok (some full) =>
      scanSlotsFull readsFull pair_index rest (results ++ [full])

/-- The outer pair loop of `get_all_open_trades_for_trader`
(lines 1213-1233): the `openTradesCount` read **is** wrapped in
`try/except` (lines 1214-1218, log and `continue`), but an error from
the slot scan propagates. -/
def scanPairsFull (counts : ℕ → Except Unit ℕ)
    (readsFull : ℕ → ℕ → Except Unit (RawTrade × RawTradeInfo × RawOpenLimitOrder)) :
    List ℕ → List FullTrade → Except Unit (List FullTrade)
  | [], results => Except.ok results
  | pair_index :: rest, results =>
    match counts pair_index with
    | Except.error _ => scanPairsFull counts readsFull rest results
    | Except.ok count =>
      Except.bind (scanSlotsFull readsFull pair_index (List.range count) results)
        (fun results2 => scanPairsFull counts readsFull rest results2)

/-- `contract_operations.py` lines 1182-1235,
`get_all_open_trades_for_trader`: scan pairs `0 .. max_pairs - 1`
(defaulting to the configured pair bound). -/
def get_all_open_trades_for_trader (max_pairs : Option ℕ)
    (counts : ℕ → Except Unit ℕ)
    (readsFull : ℕ → ℕ → Except Unit (RawTrade × RawTradeInfo × RawOpenLimitOrder)) :
    Except Unit (List FullTrade) :=
  let mp := match max_pairs with
    | none => avantis_max_pair_index
    | some m => m
  scanPairsFull counts readsFull (List.range mp) []

theorem scanPairsFull_ok_zero (counts : ℕ → Except Unit ℕ)
    (readsFull : ℕ → ℕ → Except Unit (RawTrade × RawTradeInfo × RawOpenLimitOrder)) :
    ∀ (l : List ℕ) (acc : List FullTrade), (∀ p ∈ l, counts p = Except.ok 0) →
      scanPairsFull counts readsFull l acc = Except.ok acc := by
  intro l
  induction l with
  | nil => intro acc _; rfl
  | cons p rest ih =>
    intro acc h
    have hp := h p (List.mem_cons_self p rest)
    simp only [scanPairsFull, scanSlotsFull, hp, List.range_zero, Except.bind]
    exact ih acc (fun q hq => h q (List.mem_cons_of_mem p hq))

theorem scanPairsFull_count_fail_eq_zero (counts : ℕ → Except Unit ℕ)
    (readsFull : ℕ → ℕ → Except Unit (RawTrade × RawTradeInfo × RawOpenLimitOrder))
    (p₀ : ℕ) :
    ∀ (l : List ℕ) (acc : List FullTrade),
      scanPairsFull (failCountAt counts p₀) readsFull l acc =
        scanPairsFull (zeroCountAt counts p₀) readsFull l acc := by
  intro l
  induction l with
  | nil => intro acc; rfl
  | cons p rest ih =>
    intro acc
    by_cases hp : p = p₀
    · subst hp
      simp only [scanPairsFull, scanSlotsFull, failCountAt, zeroCountAt, if_pos rfl,
        List.range_zero, Except.bind]
      exact ih acc
    · simp only [scanPairsFull, failCountAt, zeroCountAt, if_neg hp]
      cases hcp : counts p with
      | error e => exact ih acc
      | ok c =>
        show Except.bind (scanSlotsFull readsFull p (List.range c) acc)
            (fun results2 =>
              scanPairsFull (failCountAt counts p₀) readsFull rest results2) =
          Except.bind (scanSlotsFull readsFull p (List.range c) acc)
            (fun results2 =>
              scanPairsFull (zeroCountAt counts p₀) readsFull rest results2)
        cases hs : scanSlotsFull readsFull p (List.range c) acc with
        | error e => rfl
        | ok acc2 => exact ih acc2

theorem scanSlotsFull_abort
    (readsFull : ℕ → ℕ → Except Unit (RawTrade × RawTradeInfo × RawOpenLimitOrder))
    (p₀ i₀ : ℕ) (hr : readsFull p₀ i₀ = Except.error ()) :
    ∀ (l : List ℕ) (acc : List FullTrade), i₀ ∈ l →
      scanSlotsFull readsFull p₀ l acc = Except.error () := by
  intro l
  induction l with
  | nil => intro acc h; cases h
  | cons i rest ih =>
    intro acc hmem
    rcases List.mem_cons.mp hmem with h | h
    · subst h
      simp [scanSlotsFull, get_open_trade_full, hr]
    · cases hg : get_open_trade_full (readsFull p₀ i) with
      | error e =>
        cases e
        simp only [scanSlotsFull, hg]
      | ok o =>
        cases o with
        | none =>
          simp only [scanSlotsFull, hg]
          exact ih acc h
        | some full =>
          simp only [scanSlotsFull, hg]
          exact ih (acc ++ [full]) h

theorem scanPairsFull_abort (counts : ℕ → Except Unit ℕ)
    (readsFull : ℕ → ℕ → Except Unit (RawTrade × RawTradeInfo × RawOpenLimitOrder))
    (p₀ i₀ c : ℕ) (hc : counts p₀ = Except.ok c) (hi : i₀ < c)
    (hr : readsFull p₀ i₀ = Except.error ()) :
    ∀ (l : List ℕ) (acc : List FullTrade), p₀ ∈ l →
      scanPairsFull counts readsFull l acc = Except.error () := by
  intro l
  induction l with
  | nil => intro acc h; cases h
  | cons p rest ih =>
    intro acc hmem
    rcases List.mem_cons.mp hmem with h | h
    · subst h
      simp only [scanPairsFull, hc]
      rw [scanSlotsFull_abort readsFull p₀ i₀ hr (List.range c) acc
        (List.mem_range.mpr hi)]
      rfl
    · simp only [scanPairsFull]
      cases hcp : counts p with
      | error e => exact ih acc h
      | ok c2 =>
        show Except.bind (scanSlotsFull readsFull p (List.range c2) acc)
            (fun results2 => scanPairsFull counts readsFull rest results2) =
          Except.error ()
        cases hs : scanSlotsFull readsFull p (List.range c2) acc with
        | error e =>
          cases e
          rfl
        | ok acc2 => exact ih acc2 h

/-- C6 (as corrected): (i) when every configured pair reports zero
occupied slots, both listing functions return the empty list, never an
error; (ii)-(iii) in `get_positions_via_contract` a raised per-pair
count read behaves exactly like a pair with zero slots and a raised
per-slot trade read exactly like an empty slot — skipped, with the rest
of the listing unchanged; (iv)-(v) in `get_all_open_trades_for_trader`
a raised per-pair count read is likewise skipped, (vi) but a raised
per-slot read propagates and aborts the whole listing: the scan returns
the raised error instead of the remaining positions. -/
theorem listing_empty_and_fault_tolerance_per_function
    (pair_indices : Option (List ℕ)) (counts : ℕ → Except Unit ℕ)
    (reads : ℕ → ℕ → Except Unit RawTrade) (max_pairs : ℕ)
    (readsFull : ℕ → ℕ → Except Unit (RawTrade × RawTradeInfo × RawOpenLimitOrder))
    (p₀ i₀ c : ℕ) :
    ((∀ p ∈ resolvePairs pair_indices, counts p = Except.ok 0) →
      get_positions_via_contract pair_indices counts reads = []) ∧
    (get_positions_via_contract pair_indices (failCountAt counts p₀) reads =
      get_positions_via_contract pair_indices (zeroCountAt counts p₀) reads) ∧
    (get_positions_via_contract pair_indices counts (failReadAt reads p₀ i₀) =
      get_positions_via_contract pair_indices counts
        (emptySlotReadAt reads p₀ i₀)) ∧
    ((∀ p ∈ List.range max_pairs, counts p = Except.ok 0) →
      get_all_open_trades_for_trader (some max_pairs) counts readsFull =
        Except.ok []) ∧
    (get_all_open_trades_for_trader (some max_pairs) (failCountAt counts p₀)
        readsFull =
      get_all_open_trades_for_trader (some max_pairs) (zeroCountAt counts p₀)
        readsFull) ∧
    (p₀ < max_pairs → counts p₀ = Except.ok c → i₀ < c →
      readsFull p₀ i₀ = Except.error () →
      get_all_open_trades_for_trader (some max_pairs) counts readsFull =
        Except.error ()) := by
  refine ⟨?_, ?_, ?_, ?_, ?_, ?_⟩
  · intro hz
    unfold get_positions_via_contract
    refine foldl_eq_init _ _ _ ?_
    intro a p hp
    simp only [hz p hp]
    rfl
  · unfold get_positions_via_contract
    refine List.foldl_ext _ _ _ ?_
    intro a p _
    by_cases hp : p = p₀
    · subst hp
      simp only [failCountAt, zeroCountAt, if_pos rfl]
      rfl
    · simp only [failCountAt, zeroCountAt, if_neg hp]
  · unfold get_positions_via_contract
    refine List.foldl_ext _ _ _ ?_
    intro a p _
    cases hc : counts p with
    | error e => rfl
    | ok c =>
      simp only
      refine List.foldl_ext _ _ _ ?_
      intro a2 i _
      by_cases hpi : p = p₀ ∧ i = i₀
      · simp only [failReadAt, emptySlotReadAt, if_pos hpi]
        have hdec : decode_trade_struct emptyRawTrade = none := by decide
        simp only [hdec]
      · simp only [failReadAt, emptySlotReadAt, if_neg hpi]
  · intro hz
    exact scanPairsFull_ok_zero counts readsFull (List.range max_pairs) [] hz
  · exact scanPairsFull_count_fail_eq_zero counts readsFull p₀
      (List.range max_pairs) []
  · intro hp hc hi hr
    exact scanPairsFull_abort counts readsFull p₀ i₀ c hc hi hr
      (List.range max_pairs) [] (List.mem_range.mpr hp)

instance {ε α : Type} [DecidableEq ε] [DecidableEq α] :
    DecidableEq (Except ε α) := fun a b =>
  match a, b with
  | Except.error e1, Except.error e2 =>
    match decEq e1 e2 with
    | isTrue h => isTrue (h ▸ rfl)
    | isFalse h => isFalse (fun hc => h (Except.error.inj hc))
  | Except.ok a1, Except.ok a2 =>
    match decEq a1 a2 with
    | isTrue h => isTrue (h ▸ rfl)
    | isFalse h => isFalse (fun hc => h (Except.ok.inj hc))
  | Except.error _, Except.ok _ => isFalse (fun hc => Except.noConfusion hc)
  | Except.ok _, Except.error _ => isFalse (fun hc => Except.noConfusion hc)

/-- An all-zero `openTradesInfo` tuple. -/
def rawTradeInfoZero : RawTradeInfo :=
  { openInterestUSDC := 0
    tpLastUpdated := 0
    slLastUpdated := 0
    beingMarketClosed := false
    lossProtection := 0 }

/-- The all-zero `getOpenLimitOrder` tuple (no limit order sentinel). -/
def rawOpenLimitOrderZero : RawOpenLimitOrder :=
  { trader := ZERO_ADDRESS
    pairIndex := 0
    index := 0
    positionSize := 0
    buy := false
    leverage := 0
    tp := 0
    sl := 0
    price := 0
    slippageP := 0
    block := 0
    executionFee := 0 }

/-- The record `rawSample` decodes to. -/
def tradeRecordSample : TradeRecord :=
  { trader := "0xTrader"
    pair_index := 2
    index := 0
    initial_pos_token_raw := 0
    position_size_usdc_raw := 50000000
    position_size_usdc := 50
    open_price_raw := 650000000000000
    open_price := 65000
    is_long := true
    leverage := 10
    tp_raw := 0
    tp := 0
    sl_raw := 0
    sl := 0
    timestamp := 1000 }

/-- The enriched trade `get_open_trade_full` yields for `rawSample` with
all-zero info and no limit order. -/
def fullTradeSample : FullTrade :=
  { trade := tradeRecordSample
    info :=
      { open_interest_usdc_raw := 0
        open_interest_usdc := 0
        tp_last_updated := 0
        sl_last_updated := 0
        being_market_closed := false
        loss_protection_raw := 0
        loss_protection := 0 }
    open_limit_order := none }

/-- Counterexample for C6 as frozen: scanning two pairs with one
occupied slot each, where only the second pair's slot read raises, the
listing returns the raised error — the position found on the first pair
is lost and the listing aborts — whereas with that single read answering
an empty slot instead, the listing returns the first pair's position.
So a single per-slot read failure in `get_all_open_trades_for_trader`
is not skipped: it aborts the rest of the listing. -/
theorem get_all_open_trades_abort_counterexample :
    get_all_open_trades_for_trader (some 2) (fun _ => Except.ok 1)
      (fun p _ => if p = 1 then Except.error ()
        else Except.ok (rawSample, rawTradeInfoZero, rawOpenLimitOrderZero)) =
      Except.error () ∧
    get_all_open_trades_for_trader (some 2) (fun _ => Except.ok 1)
      (fun p _ => if p = 1 then
          Except.ok (emptyRawTrade, rawTradeInfoZero, rawOpenLimitOrderZero)
        else Except.ok (rawSample, rawTradeInfoZero, rawOpenLimitOrderZero)) =
      Except.ok [fullTradeSample] := by
  constructor
  · decide
  · decide

/-- Witness for C6 (as corrected): zero slots everywhere gives the empty
list in both functions; a failing slot read in
`get_all_open_trades_for_trader` gives the raised error. -/
theorem listing_empty_and_fault_tolerance_per_function_witness :
    get_positions_via_contract (some [0, 3]) (fun _ => Except.ok 0)
      (fun _ _ => Except.error ()) = [] ∧
    get_all_open_trades_for_trader (some 2) (fun _ => Except.ok 0)
      (fun _ _ => Except.error ()) = Except.ok [] ∧
    get_all_open_trades_for_trader (some 2) (fun _ => Except.ok 1)
      (fun p _ => if p = 0 then Except.error ()
        else Except.ok (rawSample, rawTradeInfoZero, rawOpenLimitOrderZero)) =
      Except.error () :=
  ⟨(listing_empty_and_fault_tolerance_per_function (some [0, 3])
      (fun _ => Except.ok 0) (fun _ _ => Except.error ()) 2
      (fun _ _ => Except.error ()) 0 0 0).1 (fun p _ => rfl),
    (listing_empty_and_fault_tolerance_per_function (some [0, 3])
      (fun _ => Except.ok 0) (fun _ _ => Except.error ()) 2
      (fun _ _ => Except.error ()) 0 0 0).2.2.2.1 (fun p _ => rfl),
    (listing_empty_and_fault_tolerance_per_function (some [0, 3])
      (fun _ => Except.ok 1) (fun _ _ => Except.error ()) 2
      (fun p _ => if p = 0 then Except.error ()
        else Except.ok (rawSample, rawTradeInfoZero, rawOpenLimitOrderZero))
      0 0 1).2.2.2.2.2 (by decide) rfl (by decide) (by decide)⟩

/-- Python exceptions as `utils.py` distinguishes them: the three
network-classified built-in exception classes, plus `ValueError` (local
validation and on-chain reverts) and any other exception, each carrying
`str(error)`. -/
inductive PyError where
  | connectionError (msg : String)
  | timeoutError (msg : String)
  | osError (msg : String)
  | valueError (msg : String)
  | otherError (msg : String)
deriving DecidableEq

def PyError.msg : PyError → String
  | .connectionError m => m
  | .timeoutError m => m
  | .osError m => m
  | .valueError m => m
  | .otherError m => m

/-- `isinstance(error, (ConnectionError, TimeoutError, OSError))`. -/
def PyError.isNetworkType : PyError → Bool
  | .connectionError _ => true
  | .timeoutError _ => true
  | .osError _ => true
  | .valueError _ => false
  | .otherError _ => false

/-- `utils.py` lines 30-38. -/
def network_keywords : List String :=
  ["connection", "timeout", "network", "dns", "refused", "unreachable",
    "socket"]

/-- `utils.py` lines 13-43, `is_network_error`: type check or keyword
match on the lower-cased message. -/
def is_network_error (e : PyError) : Bool :=
  e.isNetworkType ||
    network_keywords.any (fun k => strContains (strToLower e.msg) k)

/-- `utils.py` lines 46-140, `retry_on_network_error`: the loop body of
`sync_wrapper`/`async_wrapper` (both have identical control flow).
`op attempt` is the wrapped call on the given attempt; `rem` is the
number of retries still allowed (`max_retries - attempt`, so the Python
guard `attempt < max_retries` is `rem > 0`); the returned list is the
sequence of back-off sleeps performed, in order. -/
def retryAux {α : Type} (op : ℕ → Except PyError α) (b : ℚ) :
    ℕ → ℕ → ℚ → List ℚ → Except PyError α × List ℚ
  | rem, attempt, current_delay, sleeps =>
    match op attempt with
    | Except.ok v => (Except.ok v, sleeps)
    | Except.error e =>
      if is_network_error e = false then (Except.error e, sleeps)
      else
        match rem with
        | 0 => (Except.error e, sleeps)
        | r + 1 =>
          retryAux op b r (attempt + 1) (current_delay * b)
            (sleeps ++ [current_delay])

/-- The decorated call: `max_retries` bounds the retries (`settings`
default 3), `delay` is the initial sleep (default 1.0 s) and `backoff`
the multiplier (default 2.0). -/
def retry_on_network_error {α : Type} (op : ℕ → Except PyError α)
    (max_retries : ℕ) (delay backoff : ℚ) : Except PyError α × List ℚ :=
  retryAux op backoff max_retries 0 delay []

theorem retryAux_spec {α : Type} (op : ℕ → Except PyError α) (b : ℚ) :
    ∀ (rem attempt : ℕ) (cd : ℚ) (sl : List ℚ),
      ∃ ext : List ℚ,
        (retryAux op b rem attempt cd sl).2 = sl ++ ext ∧
        ext.length ≤ rem ∧
        (∀ k (h : k < ext.length), ext.get ⟨k, h⟩ = cd * b ^ k) ∧
        (∀ k < ext.length, ∃ e, op (attempt + k) = Except.error e ∧
          is_network_error e = true) := by
  intro rem
  induction rem with
  | zero =>
    intro attempt cd sl
    refine ⟨[], ?_, by simp, ?_, ?_⟩
    · cases h : op attempt with
      | ok v => simp [retryAux, h]
      | error e =>
        by_cases hn : is_network_error e = false
        · simp [retryAux, h, hn]
        · simp [retryAux, h, hn]
    · intro k hk
      simp at hk
    · intro k hk
      simp at hk
  | succ r ih =>
    intro attempt cd sl
    cases h : op attempt with
    | ok v =>
      refine ⟨[], by simp [retryAux, h], by simp, ?_, ?_⟩
      · intro k hk
        simp at hk
      · intro k hk
        simp at hk
    | error e =>
      by_cases hn : is_network_error e = false
      · refine ⟨[], by simp [retryAux, h, hn], by simp, ?_, ?_⟩
        · intro k hk
          simp at hk
        · intro k hk
          simp at hk
      · have hstep : retryAux op b (r + 1) attempt cd sl =
            retryAux op b r (attempt + 1) (cd * b) (sl ++ [cd]) := by
          conv_lhs => rw [retryAux]
          simp [h, hn]
        obtain ⟨ext, he, hlen, hget, herr⟩ := ih (attempt + 1) (cd * b) (sl ++ [cd])
        refine ⟨cd :: ext, ?_, ?_, ?_, ?_⟩
        · rw [hstep, he]
          simp
        · simpa using Nat.succ_le_succ hlen
        · intro k hk
          cases k with
          | zero => simp
          | succ k =>
            have hk2 : k < ext.length := by simpa using hk
            have hg := hget k hk2
            simp only [List.get_cons_succ]
            rw [show (⟨k, by simpa using hk⟩ : Fin ext.length) = ⟨k, hk2⟩ from rfl, hg,
              pow_succ]
            ring
        · intro k hk
          cases k with
          | zero =>
            refine ⟨e, by simpa using h, ?_⟩
            simpa using hn
          | succ k =>
            have hk2 : k < ext.length := by simpa using hk
            obtain ⟨e2, he2, hn2⟩ := herr k hk2
            refine ⟨e2, ?_, hn2⟩
            rw [show attempt + (k + 1) = attempt + 1 + k by omega]
            exact he2

/-- C7: the retry wrapper retries only when the raised exception is
classified as a transient network error (connection/timeout/OS class or
matching keyword); a non-network first failure is re-raised immediately
with zero retries and zero sleeps; the number of sleeps (= retries) is
bounded by the configured maximum; and the sleeps form the exponential
back-off sequence delay · backoffᵏ; every performed retry was preceded
by a network-classified failure of the corresponding attempt. -/
theorem retry_only_on_network_errors_with_backoff {α : Type}
    (op : ℕ → Except PyError α) (m : ℕ) (d b : ℚ) :
    (∀ e, op 0 = Except.error e → is_network_error e = false →
      retry_on_network_error op m d b = (Except.error e, [])) ∧
    (retry_on_network_error op m d b).2.length ≤ m ∧
    (retry_on_network_error op m d b).2 =
      (List.range (retry_on_network_error op m d b).2.length).map
        (fun k => d * b ^ k) ∧
    (∀ k < (retry_on_network_error op m d b).2.length,
      ∃ e, op k = Except.error e ∧ is_network_error e = true) := by
  obtain ⟨ext, he, hlen, hget, herr⟩ := retryAux_spec op b m 0 d []
  have hext : (retry_on_network_error op m d b).2 = ext := by
    rw [retry_on_network_error, he]
    simp
  refine ⟨?_, ?_, ?_, ?_⟩
  · intro e h hn
    rw [retry_on_network_error]
    cases m with
    | zero => simp [retryAux, h, hn]
    | succ r => simp [retryAux, h, hn]
  · rw [hext]
    exact hlen
  · rw [hext]
    refine List.ext_get (by simp) ?_
    intro n h1 h2
    rw [hget n h1]
    simp
  · intro k hk
    rw [hext] at hk
    simpa using herr k hk

/-- Witness for C7: a `ValueError` (no network keyword in its message) is
re-raised immediately with zero retries and zero sleeps, at the
`settings` defaults (3 retries, 1 s initial delay, 2.0 backoff). -/
theorem retry_only_on_network_errors_with_backoff_witness :
    retry_on_network_error
      (fun _ => (Except.error (PyError.valueError "bad collateral") :
        Except PyError ℕ)) 3 1 2 =
      (Except.error (PyError.valueError "bad collateral"), []) :=
  (retry_only_on_network_errors_with_backoff
    (fun _ => (Except.error (PyError.valueError "bad collateral") :
      Except PyError ℕ)) 3 1 2).1
    (PyError.valueError "bad collateral") rfl (by decide)

/-- The node RPC actions the allowance/approval path can perform, in the
order `approve_usdc` performs them (`position_queries.py` lines 379-463).
`waitForTransactionReceipt` and `sleepWait` are available in the
vocabulary but `approve_usdc` never performs them: it returns right after
`send_raw_transaction` (line 451). -/
inductive RpcAction where
  | getTransactionCount
  | buildTransaction
  | estimateGas
  | signTransaction
  | sendRawTransaction
  | waitForTransactionReceipt
  | sleepWait
deriving DecidableEq

/-- `position_queries.py` lines 379-463, `approve_usdc`: the approval
value in token wei (`2^256 - 1` for the `amount == 0` unlimited case,
otherwise `int(amount * 1e6)`), together with the RPC actions performed. -/
def approve_usdc (amount : ℚ) : ℤ × List RpcAction :=
  (if amount = 0 then 2 ^ 256 - 1 else pyInt (amount * 10 ^ USDC_DECIMALS),
    [RpcAction.getTransactionCount, RpcAction.buildTransaction,
      RpcAction.estimateGas, RpcAction.signTransaction,
      RpcAction.sendRawTransaction])

/-- `trade_operations.py` lines 201-239, `_ensure_usdc_approval`: query
the current allowance (a raised query falls back to 0, line 218), and
submit one approval for exactly `amount` when the allowance is below it.
The result is the list of approval values submitted. -/
def ensure_usdc_approval (allowanceQuery : Except Unit ℚ) (amount : ℚ) :
    List ℤ :=
  let allowance := match allowanceQuery with
    | Except.ok a => a
    | Except.error _ => 0
  if allowance < amount then [(approve_usdc amount).1] else []

/-- C8: whenever the queried allowance already covers the required
amount, opening a position issues zero approval transactions; an
approval is submitted exactly when the queried allowance is strictly
below the required amount. -/
theorem approval_skipped_iff_allowance_covers (a amount : ℚ) :
    (amount ≤ a → ensure_usdc_approval (Except.ok a) amount = []) ∧
    (a < amount →
      ensure_usdc_approval (Except.ok a) amount = [(approve_usdc amount).1]) := by
  constructor
  · intro h
    simp [ensure_usdc_approval, not_lt.mpr h]
  · intro h
    simp [ensure_usdc_approval, h]

/-- Witness for C8: allowance 1000000 ≥ 50 skips approval; allowance 0
triggers exactly one approval. -/
theorem approval_skipped_iff_allowance_covers_witness :
    ensure_usdc_approval (Except.ok 1000000) 50 = [] ∧
    ensure_usdc_approval (Except.ok 0) 50 = [(approve_usdc 50).1] :=
  ⟨(approval_skipped_iff_allowance_covers 1000000 50).1 (by norm_num),
    (approval_skipped_iff_allowance_covers 0 50).2 (by norm_num)⟩

/-- Counterexample for C9 at required amount $50: the approval submitted
is for exactly the required chain amount (50000000 wei), not a value
strictly above it, and the approval path performs neither a receipt poll
nor a confirmation wait before returning. -/
theorem approve_counterexample_exact_amount :
    (approve_usdc 50).1 = toChainAmount 50 ∧
    ¬ toChainAmount 50 < (approve_usdc 50).1 ∧
    RpcAction.waitForTransactionReceipt ∉ (approve_usdc 50).2 ∧
    RpcAction.sleepWait ∉ (approve_usdc 50).2 := by
  refine ⟨?_, ?_, ?_, ?_⟩
  · norm_num [approve_usdc, toChainAmount]
  · norm_num [approve_usdc, toChainAmount]
  · decide
  · decide

/-- C9 as amended: when the current allowance is insufficient the
allowance manager submits one approval transaction for exactly the
required amount (unlimited `2^256 - 1` when the requested amount is 0)
and returns immediately after broadcasting, performing no confirmation
poll and no wait. -/
theorem approve_exact_amount_without_poll (a amount : ℚ) :
    (a < amount →
      ensure_usdc_approval (Except.ok a) amount = [(approve_usdc amount).1]) ∧
    (amount ≠ 0 → (approve_usdc amount).1 = toChainAmount amount) ∧
    (amount = 0 → (approve_usdc amount).1 = 2 ^ 256 - 1) ∧
    RpcAction.waitForTransactionReceipt ∉ (approve_usdc amount).2 ∧
    RpcAction.sleepWait ∉ (approve_usdc amount).2 := by
  refine ⟨?_, ?_, ?_, ?_, ?_⟩
  · intro h
    simp [ensure_usdc_approval, h]
  · intro h
    simp [approve_usdc, toChainAmount, h]
  · intro h
    simp [approve_usdc, h]
  · show RpcAction.waitForTransactionReceipt ∉
      [RpcAction.getTransactionCount, RpcAction.buildTransaction,
        RpcAction.estimateGas, RpcAction.signTransaction,
        RpcAction.sendRawTransaction]
    decide
  · show RpcAction.sleepWait ∉
      [RpcAction.getTransactionCount, RpcAction.buildTransaction,
        RpcAction.estimateGas, RpcAction.signTransaction,
        RpcAction.sendRawTransaction]
    decide

/-- Witness for C9 (amended): at allowance $10 and required amount $50
one approval for exactly the chain value of $50 is submitted. -/
theorem approve_exact_amount_without_poll_witness :
    ensure_usdc_approval (Except.ok 10) 50 = [(approve_usdc 50).1] ∧
    (approve_usdc 50).1 = toChainAmount 50 :=
  ⟨(approve_exact_amount_without_poll 10 50).1 (by norm_num),
    (approve_exact_amount_without_poll 10 50).2.1 (by norm_num)⟩

theorem pyInt_natCast (n : ℕ) : pyInt ((n : ℕ) : ℚ) = (n : ℤ) := by
  have h := pyInt_intCast (n : ℤ)
  rw [← h]
  norm_num

/-- The stages of the open-position pipeline, as events in execution
order.  `minNotionalChecked` is the vocabulary for a pre-flight
`pairMinLevPosUSDC` Checking stage; the code never performs one. -/
inductive OpenEvent where
  | allowanceChecked
  | approvalSubmitted (value_wei : ℤ)
  | paramsValidated
  | minNotionalChecked
  | tradeTxBuilt (positionSizeUSDC leverage : ℤ)
  | txBroadcast
  | receiptAwaited
deriving DecidableEq

/-- The open-position pipeline: `trade_operations.py` `open_position`
(lines 22-122) calls `_ensure_usdc_approval` (line 87) and then
`open_position_via_contract` (`contract_operations.py` lines 69-218),
which runs `validate_trade_params` (line 95), converts units
(lines 113-117: collateral at 6 decimals, leverage at the 1e10
precision), builds the `openTrade` transaction (line 189), broadcasts it
(line 195) and awaits the receipt (line 205).  The BELOW_MIN_POS block
at lines 149-156 only logs the notional: `_pairMinLevPosUSDC` (the
contract-reported pair minimum, available from
`_get_pair_min_lev_pos_usdc`, lines 445-470) is never read on this path,
which is why the argument is unused. -/
def open_position_flow (collateral : ℚ) (leverage : ℤ) (pair_index : ℤ)
    (allowanceQuery : Except Unit ℚ) (_pairMinLevPosUSDC : ℕ) :
    List OpenEvent × Except String Unit :=
  let allowance := match allowanceQuery with
    | Except.ok a => a
    | Except.error _ => 0
  let approvalEvents :=
    if allowance < collateral then
      [OpenEvent.allowanceChecked,
        OpenEvent.approvalSubmitted (approve_usdc collateral).1]
    else [OpenEvent.allowanceChecked]
  match validate_trade_params collateral leverage pair_index with
  | Except.error msg => (approvalEvents, Except.error msg)
  | Except.ok _ =>
    (approvalEvents ++
      [OpenEvent.paramsValidated,
        OpenEvent.tradeTxBuilt (toChainAmount collateral) (leverage * 10 ^ 10),
        OpenEvent.txBroadcast, OpenEvent.receiptAwaited],
      Except.ok ())

/-- C1 evaluated at the spec's scenario (collateral $50, leverage 10,
pair minimum notional $1000 = 1000000000 raw): the request is below the
contract-reported minimum, yet the open pipeline reaches the Building
and Broadcasting stages and completes locally without any Checking-stage
rejection — no `minNotionalChecked` event exists anywhere in the trace.
The BELOW_MIN_POS rejection therefore only surfaces post-hoc from the
mined receipt (`_format_receipt`). -/
theorem below_min_notional_open_reaches_building :
    toChainAmount 50 * 10 < (1000000000 : ℤ) ∧
    OpenEvent.tradeTxBuilt (toChainAmount 50) (10 * 10 ^ 10) ∈
      (open_position_flow 50 10 0 (Except.ok 1000000) 1000000000).1 ∧
    OpenEvent.txBroadcast ∈
      (open_position_flow 50 10 0 (Except.ok 1000000) 1000000000).1 ∧
    OpenEvent.minNotionalChecked ∉
      (open_position_flow 50 10 0 (Except.ok 1000000) 1000000000).1 ∧
    (open_position_flow 50 10 0 (Except.ok 1000000) 1000000000).2 =
      Except.ok () := by
  have h50 : toChainAmount 50 = 50000000 := by
    rw [toChainAmount]
    have h : (50 : ℚ) * 10 ^ USDC_DECIMALS = ((50000000 : ℕ) : ℚ) := by
      norm_num [USDC_DECIMALS]
    rw [h, pyInt_natCast]
    norm_num
  have hval : validate_trade_params 50 10 0 = Except.ok () := by
    norm_num [validate_trade_params, MIN_COLLATERAL_USDC]
  have hflow : open_position_flow 50 10 0 (Except.ok 1000000) 1000000000 =
      ([OpenEvent.allowanceChecked, OpenEvent.paramsValidated,
        OpenEvent.tradeTxBuilt (toChainAmount 50) (10 * 10 ^ 10),
        OpenEvent.txBroadcast, OpenEvent.receiptAwaited], Except.ok ()) := by
    rw [open_position_flow]
    norm_num [hval]
  refine ⟨?_, ?_, ?_, ?_, ?_⟩
  · rw [h50]
    norm_num
  · rw [hflow]
    simp
  · rw [hflow]
    simp
  · rw [hflow]
    simp
  · rw [hflow]

/-- The arguments `build_update_tp_sl_tx` receives
(`contract_operations.py` lines 873-879). -/
structure UpdateTpSlTx where
  pair_index : ℕ
  index : ℕ
  new_sl_int : ℤ
  new_tp_int : ℤ
deriving DecidableEq

/-- `contract_operations.py` lines 814-898, `update_tp_sl_via_contract`
(its guards are duplicated by `trade_operations.py` lines 263-267):
key check, both-levels-absent check (before any chain interaction), the
`openTrades` read (`readTrade` oracle), the zero-trader sentinel check,
and the conversion in which an omitted side is re-submitted with its
current on-chain value (lines 856-867).  Returns the built transaction
arguments; a raised `ValueError` is `Except.error`. -/
def update_tp_sl_via_contract (private_key : String)
    (pair_index trade_index : ℕ) (new_tp new_sl : Option ℚ)
    (readTrade : Except Unit RawTrade) : Except String UpdateTpSlTx :=
  if private_key = "" then
    Except.error "Private key is required to update TP/SL."
  else if new_tp = none ∧ new_sl = none then
    Except.error "At least one of new_tp or new_sl must be provided."
  else
    match readTrade with
    | Except.error _ => Except.error "openTrades read raised"
    | Except.ok trade =>
      if trade.trader = ZERO_ADDRESS then
        Except.error "No open trade found"
      else
        let current_tp_int : ℤ := trade.tp
        let current_sl_int : ℤ := trade.sl
        let new_tp_int := match new_tp with
          | none => current_tp_int
          | some t => pyInt (t * 10 ^ PRICE_DECIMALS)
        let new_sl_int := match new_sl with
          | none => current_sl_int
          | some s => pyInt (s * 10 ^ PRICE_DECIMALS)
        Except.ok
          { pair_index := pair_index
            index := trade_index
            new_sl_int := new_sl_int
            new_tp_int := new_tp_int }

/-- C10: updating stop levels requires at least one of take-profit /
stop-loss — when both are absent it raises the same error for every
read oracle, i.e. before any chain interaction; it requires an existing
open trade — a zero-trader sentinel slot never yields a built
transaction; and when exactly one side is provided the omitted side is
re-submitted with its current on-chain value while the provided side is
converted at the 10-decimal price scale. -/
theorem update_tp_sl_requires_trade_and_level (pk : String) (p i : ℕ)
    (new_tp new_sl : Option ℚ) (readTrade : Except Unit RawTrade)
    (raw : RawTrade) (t s : ℚ) :
    (∃ msg, ∀ rt : Except Unit RawTrade,
      update_tp_sl_via_contract pk p i none none rt = Except.error msg) ∧
    (readTrade = Except.ok raw → raw.trader = ZERO_ADDRESS →
      ∀ tx, update_tp_sl_via_contract pk p i new_tp new_sl readTrade ≠
        Except.ok tx) ∧
    (pk ≠ "" → readTrade = Except.ok raw → raw.trader ≠ ZERO_ADDRESS →
      update_tp_sl_via_contract pk p i (some t) none readTrade =
        Except.ok ⟨p, i, (raw.sl : ℤ), pyInt (t * 10 ^ PRICE_DECIMALS)⟩) ∧
    (pk ≠ "" → readTrade = Except.ok raw → raw.trader ≠ ZERO_ADDRESS →
      update_tp_sl_via_contract pk p i none (some s) readTrade =
        Except.ok ⟨p, i, pyInt (s * 10 ^ PRICE_DECIMALS), (raw.tp : ℤ)⟩) := by
  refine ⟨?_, ?_, ?_, ?_⟩
  · by_cases hpk : pk = ""
    · refine ⟨"Private key is required to update TP/SL.", fun rt => ?_⟩
      simp [update_tp_sl_via_contract, hpk]
    · refine ⟨"At least one of new_tp or new_sl must be provided.",
        fun rt => ?_⟩
      simp [update_tp_sl_via_contract, hpk]
  · intro hrt hz tx
    by_cases hpk : pk = ""
    · simp [update_tp_sl_via_contract, hpk]
    · by_cases hboth : new_tp = none ∧ new_sl = none
      · simp [update_tp_sl_via_contract, hpk, hboth]
      · simp [update_tp_sl_via_contract, hpk, hboth, hrt, hz]
  · intro hpk hrt hz
    simp [update_tp_sl_via_contract, hpk, hrt, hz]
  · intro hpk hrt hz
    simp [update_tp_sl_via_contract, hpk, hrt, hz]

/-- An occupied slot with nonzero stop levels, for the C10 witness. -/
def rawSample2 : RawTrade :=
  { trader := "0xTrader2"
    pairIndex := 2
    index := 0
    initialPosToken := 0
    positionSizeUSDC := 50000000
    openPrice := 650000000000000
    buy := true
    leverage := 10
    tp := 700000000000000
    sl := 600000000000000
    timestamp := 1000 }

/-- Witness for C10: providing only a new take-profit of 70000 rebuilds
the transaction with the stored stop-loss (600000000000000 raw)
unchanged and the take-profit converted at the 10-decimal scale. -/
theorem update_tp_sl_requires_trade_and_level_witness :
    update_tp_sl_via_contract "0xkey" 2 0 (some 70000) none
      (Except.ok rawSample2) =
      Except.ok ⟨2, 0, 600000000000000, 700000000000000⟩ := by
  have h := (update_tp_sl_requires_trade_and_level "0xkey" 2 0 none none
    (Except.ok rawSample2) rawSample2 70000 0).2.2.1 (by decide) rfl (by decide)
  rw [h]
  have hconv : pyInt ((70000 : ℚ) * 10 ^ PRICE_DECIMALS) = 700000000000000 := by
    have h2 : (70000 : ℚ) * 10 ^ PRICE_DECIMALS = ((700000000000000 : ℕ) : ℚ) := by
      norm_num [PRICE_DECIMALS]
    rw [h2, pyInt_natCast]
    norm_num
  rw [hconv]
  norm_num [rawSample2]
